import Mathlib

/-!
# AppServer Library connector (`src/sdk/asl/src/Connector.cpp`)

A shallow embedding of the client-side connector: the event classes decoded
from raw event records, the registration handshake, the window commands and
the blocking event wait.  The message transport (the zmq sockets) is outside
the sources; it is represented by what each socket call meets (the inbox of a
socket and the outcome of its sends) and by the log of the calls made on it.
The registration, process-monitor and command sockets are created with the
type `ZMQ_REQ`; on them the transport enforces the alternation of send and
receive and refuses a call made out of turn.
-/

set_option linter.dupNamespace false

namespace asl

/-! ## Protocol declarations -/

/-- Modelled from the spec: the protocol header declaring the opcodes, event
discriminants, mouse sub-kinds, button codes and the base port of the command
channel is not part of the sources.  The constants are taken as parameters. -/
structure Asp where
  AspRequestRegister : Int
  AspRequestCreateWindow : Int
  AspRequestUpdateWindowSurface : Int
  AspRequestResizeWindow : Int
  AspRequestSetWindowVisibility : Int
  AspRequestBringWindowToFront : Int
  AspRequestMoveWindow : Int
  AspRequestDestroyWindow : Int
  AspEventMouseInput : Int
  AspEventTextInput : Int
  AspEventWindowLocationChanged : Int
  AspMouseEventMove : Nat
  AspMouseEventPress : Nat
  AspMouseEventRelease : Nat
  AspMouseEventDrag : Nat
  AspMouseButtonLeft : Nat
  AspMouseButtonMiddle : Nat
  AspMouseButtonRight : Nat
  AspReqListenerThreadPortValue : Int
  AspUndefinedWindowId : Int
deriving DecidableEq, Repr

/-- The four mouse sub-kind codes are pairwise different and so are the three
button codes (they are enumerators of the protocol header). -/
def Asp.distinctCodes (K : Asp) : Prop :=
  K.AspMouseEventMove ≠ K.AspMouseEventPress ∧
  K.AspMouseEventMove ≠ K.AspMouseEventRelease ∧
  K.AspMouseEventMove ≠ K.AspMouseEventDrag ∧
  K.AspMouseEventPress ≠ K.AspMouseEventRelease ∧
  K.AspMouseEventPress ≠ K.AspMouseEventDrag ∧
  K.AspMouseEventRelease ≠ K.AspMouseEventDrag ∧
  K.AspMouseButtonLeft ≠ K.AspMouseButtonMiddle ∧
  K.AspMouseButtonLeft ≠ K.AspMouseButtonRight ∧
  K.AspMouseButtonMiddle ≠ K.AspMouseButtonRight

instance (K : Asp) : Decidable K.distinctCodes := by
  unfold Asp.distinctCodes; infer_instance

/-- Modelled from the spec: the declaration of the request record is not part
of the sources.  It has an opcode, the session identifier, a window identifier,
six numeric slots and a payload size.  A request is declared without an
initialiser (`Asp_Request req;`), so a member the function does not assign
holds no defined value: that is `none`. -/
structure Asp_Request where
  type : Option Int := none
  clientId : Option Int := none
  winId : Option Int := none
  field0 : Option Int := none
  field1 : Option Int := none
  field2 : Option Int := none
  field3 : Option Int := none
  field4 : Option Int := none
  field5 : Option Int := none
  dataSize : Option Nat := none
deriving DecidableEq, Repr

/-- Modelled from the spec: the declaration of the event record is not part of
the sources.  It has a discriminant, a window identifier and six numeric
slots.  The connector only copies and compares the slots; `field4` and
`field5` are the values as the decoder sees them (a sub-kind code, a button
code, a byte count). -/
structure Asp_Event where
  type : Int
  winId : Int
  field0 : Int
  field1 : Int
  field2 : Int
  field3 : Int
  field4 : Nat
  field5 : Nat
deriving DecidableEq, Repr

/-! ## Event classes -/

inductive EventType where
  | kEventTypeUndefined
  | kEventTypeInput
  | kEventTypeWindowLocationChanged
deriving DecidableEq, Repr

inductive InputEventType where
  | kInputEventTypeUndefined
  | kInputEventTypeMouse
  | kInputEventTypeKey
deriving DecidableEq, Repr

inductive MouseEventType where
  | kMouseEventTypeUndefined
  | kMouseEventTypeMove
  | kMouseEventTypePress
  | kMouseEventTypeRelease
  | kMouseEventTypeDrag
deriving DecidableEq, Repr

inductive MouseButton where
  | kMouseButtonUndefined
  | kMouseButtonLeft
  | kMouseButtonMiddle
  | kMouseButtonRight
deriving DecidableEq, Repr

/-- Members of a `MouseEvent`.  `_mouseEventType` and `_button` have no
initialiser in the constructor taking an event record: they are `none` until
a setter runs. -/
structure MouseEvent where
  _windowId : Int
  _eventType : EventType
  _inputEventType : InputEventType
  _mouseEventType : Option MouseEventType
  _button : Option MouseButton
  _x : Int
  _y : Int
  _absX : Int
  _absY : Int
deriving DecidableEq, Repr

/-- Members of a `KeyEvent` (the key event type is never set by the decoder
and is left out). -/
structure KeyEvent where
  _windowId : Int
  _eventType : EventType
  _inputEventType : InputEventType
  _text : List Nat
deriving DecidableEq, Repr

structure WindowLocationChangedEvent where
  _windowId : Int
  _eventType : EventType
  _x : Int
  _y : Int
deriving DecidableEq, Repr

/-- What `waitEvent` hands back behind its `shared_ptr<Event>`. -/
inductive Event where
  | mouse (e : MouseEvent)
  | key (e : KeyEvent)
  | windowLocationChanged (e : WindowLocationChangedEvent)
deriving DecidableEq, Repr

/-- The method `MouseEvent::parseMouseButton`. -/
def MouseEvent.parseMouseButton (K : Asp) (aspMouseButton : Nat) : MouseButton :=
  if aspMouseButton = K.AspMouseButtonRight then MouseButton.kMouseButtonRight
  else if aspMouseButton = K.AspMouseButtonMiddle then MouseButton.kMouseButtonMiddle
  else if aspMouseButton = K.AspMouseButtonLeft then MouseButton.kMouseButtonLeft
  else MouseButton.kMouseButtonUndefined

/-- The constructor `MouseEvent::MouseEvent(const Asp_Event&)`: the base is built with the
undefined window id, then the setters run in the order of the source. -/
def MouseEvent.MouseEvent (K : Asp) (aspEvent : Asp_Event) : asl.MouseEvent :=
  let e0 : asl.MouseEvent :=
    { _windowId := K.AspUndefinedWindowId,
      _eventType := EventType.kEventTypeInput,
      _inputEventType := InputEventType.kInputEventTypeMouse,
      _mouseEventType := none, _button := none,
      _x := 0, _y := 0, _absX := 0, _absY := 0 }
  let e1 := { e0 with _windowId := aspEvent.winId }
  let e2 : asl.MouseEvent :=
    if aspEvent.field4 = K.AspMouseEventMove then
      { e1 with _mouseEventType := some MouseEventType.kMouseEventTypeMove,
                _button := some MouseButton.kMouseButtonUndefined }
    else if aspEvent.field4 = K.AspMouseEventPress then
      { e1 with _mouseEventType := some MouseEventType.kMouseEventTypePress,
                _button := some (MouseEvent.parseMouseButton K aspEvent.field5) }
    else if aspEvent.field4 = K.AspMouseEventRelease then
      { e1 with _mouseEventType := some MouseEventType.kMouseEventTypeRelease,
                _button := some (MouseEvent.parseMouseButton K aspEvent.field5) }
    else if aspEvent.field4 = K.AspMouseEventDrag then
      { e1 with _mouseEventType := some MouseEventType.kMouseEventTypeDrag,
                _button := some (MouseEvent.parseMouseButton K aspEvent.field5) }
    else e1
  { e2 with _x := aspEvent.field0, _y := aspEvent.field1,
            _absX := aspEvent.field2, _absY := aspEvent.field3 }

/-- The constructor `KeyEvent::KeyEvent(const Asp_Event&, std::string)`. -/
def KeyEvent.KeyEvent (aspEvent : Asp_Event) (text : List Nat) : asl.KeyEvent :=
  { _windowId := aspEvent.winId,
    _eventType := EventType.kEventTypeInput,
    _inputEventType := InputEventType.kInputEventTypeKey,
    _text := text }

/-- The constructor
`WindowLocationChangedEvent::WindowLocationChangedEvent(const Asp_Event&)`. -/
def WindowLocationChangedEvent.WindowLocationChangedEvent (aspEvent : Asp_Event) :
    asl.WindowLocationChangedEvent :=
  { _windowId := aspEvent.winId,
    _eventType := EventType.kEventTypeWindowLocationChanged,
    _x := aspEvent.field0, _y := aspEvent.field1 }

/-- Conversion of a `char*` to `std::string`: the characters before the first
zero byte. -/
def cString (memory : List Nat) : List Nat :=
  memory.takeWhile (fun b => b != 0)

/-! ## Transport -/

/-- A message as it arrives: its bytes (their number is what `recv` returns)
and the value `recv` leaves in the buffer when the buffer is an `int` or an
event record. -/
structure Message where
  bytes : List Nat
  asInt : Int
  asEvent : Asp_Event
deriving DecidableEq, Repr

/-- The byte count `recv` reports. -/
def Message.size (m : Message) : Nat := m.bytes.length

/-- What the next `recv` of a socket meets: a transport error (the call
throws) or a message. -/
inductive Incoming where
  | fault
  | msg (m : Message)
deriving DecidableEq, Repr

/-- What a `send` call is given. -/
inductive Sent where
  | request (r : Asp_Request)
  | subscribeRequest (pid : Int) (clientId : Int)
  | raster (data : List Nat) (dataSize : Nat)
  | ack (v : Int)
deriving DecidableEq, Repr

/-- The receive buffer a `recv` call is given. -/
inductive Buffer where
  | int
  | event
  | chars (len : Nat)
deriving DecidableEq, Repr

/-- A call made on a socket. -/
inductive Op where
  | send (m : Sent)
  | recv (b : Buffer)
deriving DecidableEq, Repr

/-- The address a socket was opened on: `connect("tcp://localhost:<port>")` or
`bind("tcp://*:<port>")`. -/
inductive Endpoint where
  | connect (port : Int)
  | bind (port : Int)
deriving DecidableEq, Repr

/-- A socket: its address, the messages and errors its successive `recv`
calls will meet, whether its successive `send` calls throw (`true`; none left
means the send goes through), and the calls made so far, oldest first. -/
structure Socket where
  endpoint : Option Endpoint
  inbox : List Incoming
  sendFaults : List Bool
  log : List Op
deriving DecidableEq, Repr

/-- Result of a `recv` call: the call never returns (nothing arrives), it
throws, or it returns a message. -/
inductive Received where
  | blocked
  | fault
  | got (m : Message)
deriving DecidableEq, Repr

/-- The call `socket_t::send`: `true` when the message went out, `false` when the call
threw. -/
def Socket.send (s : Socket) (m : Sent) : Bool × Socket :=
  match s.sendFaults with
  | [] => (true, { s with log := s.log ++ [Op.send m] })
  | f :: fs => (!f, { s with sendFaults := fs, log := s.log ++ [Op.send m] })

/-- The call `socket_t::recv(buf, len)`. -/
def Socket.recv (s : Socket) (b : Buffer) : Received × Socket :=
  match s.inbox with
  | [] => (Received.blocked, { s with log := s.log ++ [Op.recv b] })
  | Incoming.fault :: rest =>
      (Received.fault, { s with inbox := rest, log := s.log ++ [Op.recv b] })
  | Incoming.msg m :: rest =>
      (Received.got m, { s with inbox := rest, log := s.log ++ [Op.recv b] })

/-- The next `n` `send` calls of the socket do not throw. -/
def Socket.sendsGoThrough (s : Socket) (n : Nat) : Prop :=
  ∀ b ∈ s.sendFaults.take n, b = false

instance (s : Socket) (n : Nat) : Decidable (s.sendsGoThrough n) := by
  unfold Socket.sendsGoThrough; infer_instance

/-- The socket after a `send` call: the outcome of one send is used up and the
call is logged; the inbox is as before. -/
def Socket.afterSend (s : Socket) (m : Sent) : Socket :=
  { s with sendFaults := s.sendFaults.tail, log := s.log ++ [Op.send m] }

/-- A socket of type `ZMQ_REQ`, the type the connector creates its
registration, process-monitor and command sockets with.  Such a socket
enforces the alternation send, receive, send, ...: `awaitingReply` is set by a
send that went out and cleared by a receive that returned a message. -/
structure ReqSocket extends Socket where
  awaitingReply : Bool
deriving DecidableEq, Repr

/-- The call `socket_t::send` on a `ZMQ_REQ` socket.  While a reply is awaited
the transport refuses the send: the call throws and nothing else changes.
Otherwise the call is that of a plain socket and, when the message went out,
the socket awaits the reply. -/
def ReqSocket.send (s : ReqSocket) (m : Sent) : Bool × ReqSocket :=
  if s.awaitingReply then (false, { s with log := s.log ++ [Op.send m] })
  else
    match s.toSocket.send m with
    | (true, t) => (true, { toSocket := t, awaitingReply := true })
    | (false, t) => (false, { toSocket := t, awaitingReply := false })

/-- The call `socket_t::recv(buf, len)` on a `ZMQ_REQ` socket.  When no reply
is awaited (no send went out since the last message was received) the
transport refuses the receive: the call throws and the inbox is untouched.
Otherwise the call is that of a plain socket and, when it returns a message
(of any length), the socket no longer awaits a reply. -/
def ReqSocket.recv (s : ReqSocket) (b : Buffer) : Received × ReqSocket :=
  if s.awaitingReply then
    match s.toSocket.recv b with
    | (Received.got m, t) => (Received.got m, { toSocket := t, awaitingReply := false })
    | (Received.fault, t) => (Received.fault, { toSocket := t, awaitingReply := true })
    | (Received.blocked, t) => (Received.blocked, { toSocket := t, awaitingReply := true })
  else (Received.fault, { s with log := s.log ++ [Op.recv b] })

/-- The `ZMQ_REQ` socket after a send that went out. -/
def ReqSocket.afterSend (s : ReqSocket) (m : Sent) : ReqSocket :=
  { toSocket := s.toSocket.afterSend m, awaitingReply := true }

/-- What the library answers to `connect(address)` and `bind(address)`:
`accepts e = false` when it refuses the address `e`, and the call throws. -/
def Socket.openAt (s : Socket) (e : Endpoint) (accepts : Endpoint → Bool) : Bool × Socket :=
  if accepts e then (true, { s with endpoint := some e }) else (false, s)

/-- A number that names a TCP port. -/
def isPortNumber (port : Int) : Prop := 1 ≤ port ∧ port ≤ 65535

instance (port : Int) : Decidable (isPortNumber port) := by
  unfold isPortNumber; infer_instance

/-- How a call of the connector ends: it returns, an exception leaves it, the
process exits, or it waits for ever in a `recv`. -/
inductive Outcome (α : Type) where
  | returned (a : α)
  | thrown
  | exited (code : Int)
  | blocked
deriving DecidableEq, Repr

/-- Assignment to an `int`: two's complement on 32 bits. -/
def toInt32 (z : Int) : Int := (z + 2147483648) % 4294967296 - 2147483648

/-! ## Connector -/

/-- Members of `Connector`. -/
structure Connector where
  _clientId : Int
  _windowIds : List Int
  _regSocket : ReqSocket
  _processMonitorSocket : ReqSocket
  _socket : ReqSocket
  _eventsSocket : Socket
deriving DecidableEq, Repr

/-- The method `Connector::updateWindowSurface`. -/
def Connector.updateWindowSurface (K : Asp) (c : Connector) (id : Int) (data : List Nat)
    (dataSize : Nat) (x y width height : Int) : Outcome Unit × Connector :=
  let req : Asp_Request :=
    { type := some K.AspRequestUpdateWindowSurface,
      clientId := some c._clientId,
      winId := some id,
      field1 := some x, field2 := some y, field3 := some width, field4 := some height,
      dataSize := some dataSize }
  match c._socket.send (Sent.request req) with
  | (false, s1) => (Outcome.returned (), { c with _socket := s1 })
  | (true, s1) =>
    match s1.recv Buffer.int with
    | (Received.blocked, s2) => (Outcome.blocked, { c with _socket := s2 })
    | (Received.fault, s2) => (Outcome.returned (), { c with _socket := s2 })
    | (Received.got m, s2) =>
      if m.size ≤ 0 ∨ m.asInt ≠ 1 then (Outcome.returned (), { c with _socket := s2 })
      else
        match s2.send (Sent.raster data dataSize) with
        | (false, s3) => (Outcome.returned (), { c with _socket := s3 })
        | (true, s3) =>
          match s3.recv Buffer.int with
          | (Received.blocked, s4) => (Outcome.blocked, { c with _socket := s4 })
          | (Received.fault, s4) => (Outcome.returned (), { c with _socket := s4 })
          | (Received.got m2, s4) =>
            if m2.size ≤ 0 ∨ m2.asInt ≠ 1 then (Outcome.returned (), { c with _socket := s4 })
            else (Outcome.returned (), { c with _socket := s4 })

/-- The method `Connector::resizeWindow`. -/
def Connector.resizeWindow (K : Asp) (c : Connector) (id : Int) (data : List Nat)
    (dataSize : Nat) (width height : Int) : Outcome Unit × Connector :=
  let req : Asp_Request :=
    { type := some K.AspRequestResizeWindow,
      clientId := some c._clientId,
      winId := some id,
      field1 := some width, field2 := some height,
      dataSize := some dataSize }
  match c._socket.send (Sent.request req) with
  | (false, s1) => (Outcome.returned (), { c with _socket := s1 })
  | (true, s1) =>
    match s1.recv Buffer.int with
    | (Received.blocked, s2) => (Outcome.blocked, { c with _socket := s2 })
    | (Received.fault, s2) => (Outcome.returned (), { c with _socket := s2 })
    | (Received.got m, s2) =>
      if m.size ≤ 0 ∨ m.asInt ≠ 1 then (Outcome.returned (), { c with _socket := s2 })
      else
        match s2.send (Sent.raster data dataSize) with
        | (false, s3) => (Outcome.returned (), { c with _socket := s3 })
        | (true, s3) =>
          match s3.recv Buffer.int with
          | (Received.blocked, s4) => (Outcome.blocked, { c with _socket := s4 })
          | (Received.fault, s4) => (Outcome.returned (), { c with _socket := s4 })
          | (Received.got m2, s4) =>
            if m2.size ≤ 0 ∨ m2.asInt ≠ 1 then (Outcome.returned (), { c with _socket := s4 })
            else (Outcome.returned (), { c with _socket := s4 })

/-- The method `Connector::waitEvent`.  `memory` is what lies in memory after the bytes
`recv` copied into the `malloc`ed text buffer; the `char*` to `std::string`
conversion reads on into it until a zero byte.  The result `none` is the
null pointer. -/
def Connector.waitEvent (K : Asp) (c : Connector) (memory : List Nat) :
    Outcome (Option Event) × Connector :=
  match c._eventsSocket.recv Buffer.event with
  | (Received.blocked, s1) => (Outcome.blocked, { c with _eventsSocket := s1 })
  | (Received.fault, s1) => (Outcome.returned none, { c with _eventsSocket := s1 })
  | (Received.got m, s1) =>
    if m.size = 0 then (Outcome.exited 1, { c with _eventsSocket := s1 })
    else
      match s1.send (Sent.ack 1) with
      | (false, s2) => (Outcome.returned none, { c with _eventsSocket := s2 })
      | (true, s2) =>
        let req := m.asEvent
        if req.type = K.AspEventMouseInput then
          (Outcome.returned (some (Event.mouse (MouseEvent.MouseEvent K req))),
            { c with _eventsSocket := s2 })
        else if req.type = K.AspEventTextInput then
          match s2.recv (Buffer.chars req.field5) with
          | (Received.blocked, s3) => (Outcome.blocked, { c with _eventsSocket := s3 })
          | (Received.fault, s3) => (Outcome.returned none, { c with _eventsSocket := s3 })
          | (Received.got p, s3) =>
            if p.size = 0 then (Outcome.exited 1, { c with _eventsSocket := s3 })
            else
              match s3.send (Sent.ack 1) with
              | (false, s4) => (Outcome.returned none, { c with _eventsSocket := s4 })
              | (true, s4) =>
                let text := cString (p.bytes.take req.field5 ++ memory)
                (Outcome.returned (some (Event.key (KeyEvent.KeyEvent req text))),
                  { c with _eventsSocket := s4 })
        else if req.type = K.AspEventWindowLocationChanged then
          (Outcome.returned (some (Event.windowLocationChanged
              (WindowLocationChangedEvent.WindowLocationChangedEvent req))),
            { c with _eventsSocket := s2 })
        else (Outcome.returned none, { c with _eventsSocket := s2 })

/-- The method `Connector::subscribe`.  `pid` is what `getpid()` returns;
`newSocket` and `newEventsSocket` are the sockets the two `make_shared` calls
create; `accepts` is the answer of the library to the addresses given to
`connect` and `bind`.  The function has no handler: an exception of a socket
call leaves it, with the members as assigned so far. -/
def Connector.subscribe (K : Asp) (c : Connector) (pid : Int)
    (newSocket : ReqSocket) (newEventsSocket : Socket) (accepts : Endpoint → Bool) :
    Outcome Unit × Connector :=
  let subscribeRequest : Asp_Request :=
    { type := some K.AspRequestRegister, field0 := some pid }
  match c._regSocket.send (Sent.request subscribeRequest) with
  | (false, r1) => (Outcome.thrown, { c with _regSocket := r1 })
  | (true, r1) =>
    match r1.recv Buffer.event with
    | (Received.blocked, r2) => (Outcome.blocked, { c with _regSocket := r2 })
    | (Received.fault, r2) => (Outcome.thrown, { c with _regSocket := r2 })
    | (Received.got evt, r2) =>
      if evt.size > 0 then
        let c1 := { c with _regSocket := r2, _clientId := evt.asEvent.field0 }
        match c1._processMonitorSocket.send (Sent.subscribeRequest pid c1._clientId) with
        | (false, p1) => (Outcome.thrown, { c1 with _processMonitorSocket := p1 })
        | (true, p1) =>
          match p1.recv Buffer.int with
          | (Received.blocked, p2) => (Outcome.blocked, { c1 with _processMonitorSocket := p2 })
          | (Received.fault, p2) => (Outcome.thrown, { c1 with _processMonitorSocket := p2 })
          | (Received.got ack, p2) =>
            if ack.size ≤ 0 ∨ ack.asInt ≠ 1 then
              (Outcome.exited 1, { c1 with _processMonitorSocket := p2 })
            else
              let c2 := { c1 with _processMonitorSocket := p2, _socket := newSocket }
              let reqSocketPort := toInt32 (K.AspReqListenerThreadPortValue + c2._clientId)
              match newSocket.toSocket.openAt (Endpoint.connect reqSocketPort) accepts with
              | (false, _) => (Outcome.thrown, c2)
              | (true, t) =>
                let c3 := { c2 with _socket := { newSocket with toSocket := t } }
                let port := toInt32 (10000 + c3._clientId)
                let c4 := { c3 with _eventsSocket := newEventsSocket }
                match newEventsSocket.openAt (Endpoint.bind port) accepts with
                | (false, _) => (Outcome.thrown, c4)
                | (true, e) => (Outcome.returned (), { c4 with _eventsSocket := e })
      else (Outcome.exited 1, { c with _regSocket := r2 })

/-- The constructor `Connector::Connector`: the registration and
process-monitor sockets are connected to ports 9000 and 9001 (here with the
given inboxes and no send error); the command and event sockets do not exist
yet and `_clientId` has no value yet (0 stands for it). -/
def Connector.Connector (regInbox pmInbox : List Incoming) : asl.Connector :=
  { _clientId := 0,
    _windowIds := [],
    _regSocket :=
      { endpoint := some (Endpoint.connect 9000), inbox := regInbox, sendFaults := [],
        log := [], awaitingReply := false },
    _processMonitorSocket :=
      { endpoint := some (Endpoint.connect 9001), inbox := pmInbox, sendFaults := [],
        log := [], awaitingReply := false },
    _socket :=
      { endpoint := none, inbox := [], sendFaults := [], log := [], awaitingReply := false },
    _eventsSocket := { endpoint := none, inbox := [], sendFaults := [], log := [] } }

/-! ## Sequences of `newWindow` calls -/

/-- Example values for the constants of the protocol header. -/
def exampleAsp : Asp :=
  { AspRequestRegister := 1,
    AspRequestCreateWindow := 2,
    AspRequestUpdateWindowSurface := 3,
    AspRequestResizeWindow := 4,
    AspRequestSetWindowVisibility := 5,
    AspRequestBringWindowToFront := 6,
    AspRequestMoveWindow := 7,
    AspRequestDestroyWindow := 8,
    AspEventMouseInput := 1,
    AspEventTextInput := 2,
    AspEventWindowLocationChanged := 3,
    AspMouseEventMove := 0,
    AspMouseEventPress := 1,
    AspMouseEventRelease := 2,
    AspMouseEventDrag := 3,
    AspMouseButtonLeft := 0,
    AspMouseButtonMiddle := 1,
    AspMouseButtonRight := 2,
    AspReqListenerThreadPortValue := 20000,
    AspUndefinedWindowId := 0 }

/-- An event record with the given discriminant, window id, first slot and
last slot, the other slots zero. -/
def exampleEvent (type winId field0 : Int) (field5 : Nat) : Asp_Event :=
  { type := type, winId := winId, field0 := field0, field1 := 0, field2 := 0, field3 := 0,
    field4 := 0, field5 := field5 }

/-- A four-byte message that reads as the integer `v`. -/
def ackMessage (v : Int) : Message :=
  { bytes := List.replicate 4 0, asInt := v, asEvent := exampleEvent 0 0 0 0 }

/-- A message as long as an event record that reads as the record `e`. -/
def eventMessage (e : Asp_Event) : Message :=
  { bytes := List.replicate 64 0, asInt := 0, asEvent := e }

/-- A message made of the given text bytes. -/
def textMessage (bytes : List Nat) : Message :=
  { bytes := bytes, asInt := 0, asEvent := exampleEvent 0 0 0 0 }

/-- A text-input record (discriminant 2 of `exampleAsp`) for window 4 that
announces `len` bytes of text. -/
def textHeader (len : Nat) : Message := eventMessage (exampleEvent 2 4 0 len)

/-- A press record (sub-kind 1 of `exampleAsp`) for window 4 at (10, 20),
absolute (110, 120), with the button code 7, which names no button. -/
def pressWithUnknownButton : Asp_Event :=
  { type := 1, winId := 4, field0 := 10, field1 := 20, field2 := 110, field3 := 120,
    field4 := 1, field5 := 7 }

/-- A socket with the given inbox, no send error, nothing logged. -/
def exampleSocket (endpoint : Option Endpoint) (inbox : List Incoming) : Socket :=
  { endpoint := endpoint, inbox := inbox, sendFaults := [], log := [] }

/-- A `ZMQ_REQ` socket with the given inbox, no send error, nothing logged,
ready for a request. -/
def exampleReqSocket (endpoint : Option Endpoint) (inbox : List Incoming) : ReqSocket :=
  { toSocket := exampleSocket endpoint inbox, awaitingReply := false }

/-- A subscribed connector of session 7 with the given window set and the
given inboxes on the command and event channels. -/
def exampleConnector (windowIds : List Int) (cmdInbox evtInbox : List Incoming) : Connector :=
  { _clientId := 7,
    _windowIds := windowIds,
    _regSocket := exampleReqSocket (some (Endpoint.connect 9000)) [],
    _processMonitorSocket := exampleReqSocket (some (Endpoint.connect 9001)) [],
    _socket := exampleReqSocket (some (Endpoint.connect 20007)) cmdInbox,
    _eventsSocket := exampleSocket (some (Endpoint.bind 10007)) evtInbox }

/-- A library that accepts exactly the addresses whose port is a port
number. -/
def portNumbersOnly : Endpoint → Bool
  | Endpoint.connect port => decide (isPortNumber port)
  | Endpoint.bind port => decide (isPortNumber port)

theorem Socket.send_eq (s : Socket) (m : Sent) :
    (s.send m).2 = s.afterSend m := by
  unfold Socket.send Socket.afterSend
  cases h : s.sendFaults <;> simp

theorem Socket.send_snd (s : Socket) (m : Sent) (b : Bool) (s1 : Socket)
    (h : s.send m = (b, s1)) : s1 = s.afterSend m := by
  have h1 := congrArg Prod.snd h
  rw [Socket.send_eq] at h1
  exact h1.symm

theorem Socket.send_ok (s : Socket) (m : Sent) (n : Nat) (h : s.sendsGoThrough (n + 1)) :
    s.send m = (true, s.afterSend m) ∧ (s.afterSend m).sendsGoThrough n := by
  unfold Socket.send Socket.afterSend Socket.sendsGoThrough at *
  cases hf : s.sendFaults with
  | nil => simp
  | cons f fs =>
    rw [hf] at h
    have hf0 : f = false := h f (by simp)
    subst hf0
    refine ⟨by simp, ?_⟩
    intro b hb
    have hb2 : b ∈ List.take n fs := by simpa using hb
    exact h b (by simp [List.take_succ_cons, hb2])

theorem Socket.recv_log (s : Socket) (b : Buffer) (r : Received) (s2 : Socket)
    (h : s.recv b = (r, s2)) : s2.log = s.log ++ [Op.recv b] := by
  unfold Socket.recv at h
  split at h <;> (simp only [Prod.mk.injEq] at h; rw [← h.2])

theorem Socket.recv_msg (s : Socket) (b : Buffer) (m : Message) (rest : List Incoming)
    (h : s.inbox = Incoming.msg m :: rest) :
    s.recv b = (Received.got m, { s with inbox := rest, log := s.log ++ [Op.recv b] }) := by
  unfold Socket.recv
  rw [h]

theorem Socket.recv_fault (s : Socket) (b : Buffer) (rest : List Incoming)
    (h : s.inbox = Incoming.fault :: rest) :
    s.recv b = (Received.fault, { s with inbox := rest, log := s.log ++ [Op.recv b] }) := by
  unfold Socket.recv
  rw [h]

theorem toInt32_of_range (z : Int) (h : -2147483648 ≤ z ∧ z < 2147483648) :
    toInt32 z = z := by
  unfold toInt32
  omega

theorem ReqSocket.req_send_log (s : ReqSocket) (m : Sent) :
    (s.send m).2.log = s.log ++ [Op.send m] ∧ (s.send m).2.inbox = s.inbox := by
  unfold ReqSocket.send
  split
  · exact ⟨rfl, rfl⟩
  · unfold Socket.send
    cases s.sendFaults with
    | nil => exact ⟨rfl, rfl⟩
    | cons f fs => cases f <;> exact ⟨rfl, rfl⟩

theorem ReqSocket.req_send_snd_log (s : ReqSocket) (m : Sent) (b : Bool) (s1 : ReqSocket)
    (h : s.send m = (b, s1)) : s1.log = s.log ++ [Op.send m] ∧ s1.inbox = s.inbox := by
  have h1 := ReqSocket.req_send_log s m
  rw [h] at h1
  exact h1

theorem ReqSocket.req_send_ok (s : ReqSocket) (m : Sent) (n : Nat)
    (hready : s.awaitingReply = false) (h : s.toSocket.sendsGoThrough (n + 1)) :
    s.send m = (true, s.afterSend m) ∧ (s.afterSend m).toSocket.sendsGoThrough n := by
  obtain ⟨h1, h2⟩ := Socket.send_ok s.toSocket m n h
  refine ⟨?_, h2⟩
  unfold ReqSocket.send
  rw [hready, h1]
  rfl

theorem ReqSocket.req_recv_log (s : ReqSocket) (b : Buffer) (r : Received) (s2 : ReqSocket)
    (h : s.recv b = (r, s2)) : s2.log = s.log ++ [Op.recv b] := by
  unfold ReqSocket.recv at h
  split at h
  · split at h <;>
      (rename_i t ht
       simp only [Prod.mk.injEq] at h
       rw [← h.2]
       exact Socket.recv_log _ _ _ _ ht)
  · simp only [Prod.mk.injEq] at h
    rw [← h.2]

theorem ReqSocket.req_recv_msg (s : ReqSocket) (b : Buffer) (m : Message)
    (rest : List Incoming) (ha : s.awaitingReply = true)
    (h : s.inbox = Incoming.msg m :: rest) :
    s.recv b =
      (Received.got m,
        { s with inbox := rest, log := s.log ++ [Op.recv b], awaitingReply := false }) := by
  unfold ReqSocket.recv
  rw [ha, Socket.recv_msg _ b m rest h]
  rfl

theorem ReqSocket.req_recv_fault (s : ReqSocket) (b : Buffer) (rest : List Incoming)
    (ha : s.awaitingReply = true) (h : s.inbox = Incoming.fault :: rest) :
    s.recv b =
      (Received.fault,
        { s with inbox := rest, log := s.log ++ [Op.recv b], awaitingReply := true }) := by
  unfold ReqSocket.recv
  rw [ha, Socket.recv_fault _ b rest h]
  rfl

/-! ## The creation-ack loop -/

theorem updateWindowSurface_shape (K : Asp) (c : Connector) (id : Int) (data : List Nat)
    (dataSize : Nat) (x y width height : Int) :
    ((c.updateWindowSurface K id data dataSize x y width height).2._windowIds = c._windowIds ∧
    (c.updateWindowSurface K id data dataSize x y width height).2._clientId = c._clientId ∧
    ((c.updateWindowSurface K id data dataSize x y width height).1 = Outcome.returned () ∨
      (c.updateWindowSurface K id data dataSize x y width height).1 = Outcome.blocked) ∧
    (∃ ops, (c.updateWindowSurface K id data dataSize x y width height).2._socket.log = c._socket.log ++ ops ∧
      ops <+: [Op.send (Sent.request
          { type := some K.AspRequestUpdateWindowSurface, clientId := some c._clientId,
            winId := some id, field1 := some x, field2 := some y, field3 := some width,
            field4 := some height, dataSize := some dataSize }), Op.recv Buffer.int,
        Op.send (Sent.raster data dataSize), Op.recv Buffer.int]) ∧
    (∀ (a1 : Message) (i2 : Incoming) (rest : List Incoming),
      c._socket.awaitingReply = false →
      c._socket.sendsGoThrough 2 →
      c._socket.inbox = Incoming.msg a1 :: i2 :: rest →
      (0 < a1.size ∧ a1.asInt = 1) →
      (c.updateWindowSurface K id data dataSize x y width height).2._socket.log = c._socket.log ++
        [Op.send (Sent.request
          { type := some K.AspRequestUpdateWindowSurface, clientId := some c._clientId,
            winId := some id, field1 := some x, field2 := some y, field3 := some width,
            field4 := some height, dataSize := some dataSize }), Op.recv Buffer.int,
          Op.send (Sent.raster data dataSize), Op.recv Buffer.int] ∧
      (c.updateWindowSurface K id data dataSize x y width height).2._socket.inbox = rest ∧
      (c.updateWindowSurface K id data dataSize x y width height).1 = Outcome.returned ()) ∧
    (∀ (a1 : Message) (rest : List Incoming),
      c._socket.awaitingReply = false →
      c._socket.sendsGoThrough 1 →
      c._socket.inbox = Incoming.msg a1 :: rest →
      (a1.size = 0 ∨ a1.asInt ≠ 1) →
      (c.updateWindowSurface K id data dataSize x y width height).2._socket.log = c._socket.log ++
        [Op.send (Sent.request
          { type := some K.AspRequestUpdateWindowSurface, clientId := some c._clientId,
            winId := some id, field1 := some x, field2 := some y, field3 := some width,
            field4 := some height, dataSize := some dataSize }), Op.recv Buffer.int] ∧
      (c.updateWindowSurface K id data dataSize x y width height).2._socket.inbox = rest ∧
      (c.updateWindowSurface K id data dataSize x y width height).1 = Outcome.returned ())) := by
  refine ⟨?_, ?_, ?_, ?_, ?_, ?_⟩
  · unfold Connector.updateWindowSurface
    simp only []
    repeat' split
    all_goals rfl
  · unfold Connector.updateWindowSurface
    simp only []
    repeat' split
    all_goals rfl
  · unfold Connector.updateWindowSurface
    simp only []
    repeat' split
    all_goals simp
  · unfold Connector.updateWindowSurface
    simp only []
    split
    · rename_i s1 hsd
      have l1 := (ReqSocket.req_send_snd_log _ _ _ _ hsd).1
      simp [l1]
    · rename_i s1 hsd
      have l1 := (ReqSocket.req_send_snd_log _ _ _ _ hsd).1
      split
      · rename_i s2 hrv
        have l2 := ReqSocket.req_recv_log _ _ _ _ hrv
        simp [l2, l1]
      · rename_i s2 hrv
        have l2 := ReqSocket.req_recv_log _ _ _ _ hrv
        simp [l2, l1]
      · rename_i m s2 hrv
        have l2 := ReqSocket.req_recv_log _ _ _ _ hrv
        split
        · simp [l2, l1]
        · split
          · rename_i s3 hsd3
            have l3 := (ReqSocket.req_send_snd_log _ _ _ _ hsd3).1
            simp [l3, l2, l1]
          · rename_i s3 hsd3
            have l3 := (ReqSocket.req_send_snd_log _ _ _ _ hsd3).1
            split
            · rename_i s4 hrv4
              have l4 := ReqSocket.req_recv_log _ _ _ _ hrv4
              simp [l4, l3, l2, l1]
            · rename_i s4 hrv4
              have l4 := ReqSocket.req_recv_log _ _ _ _ hrv4
              simp [l4, l3, l2, l1]
            · rename_i m2 s4 hrv4
              have l4 := ReqSocket.req_recv_log _ _ _ _ hrv4
              split <;> simp [l4, l3, l2, l1]
  · intro a1 i2 rest hready hsend hinbox hack
    obtain ⟨hs1, hs1'⟩ := ReqSocket.req_send_ok c._socket (Sent.request
          { type := some K.AspRequestUpdateWindowSurface, clientId := some c._clientId,
            winId := some id, field1 := some x, field2 := some y, field3 := some width,
            field4 := some height, dataSize := some dataSize }) 1 hready hsend
    have hsz : ¬ a1.size ≤ 0 := by omega
    unfold Connector.updateWindowSurface
    simp only []
    rw [hs1]
    simp only []
    rw [ReqSocket.req_recv_msg (c._socket.afterSend _) Buffer.int a1 (i2 :: rest) rfl hinbox]
    simp only [hsz, hack.2, ne_eq, not_true_eq_false, or_self, if_false]
    rw [(ReqSocket.req_send_ok _ (Sent.raster data dataSize) 0 rfl
      (by simpa [Socket.sendsGoThrough, ReqSocket.afterSend, Socket.afterSend] using hs1')).1]
    simp only []
    cases i2 with
    | fault =>
      rw [ReqSocket.req_recv_fault _ Buffer.int rest rfl
        (by simp [ReqSocket.afterSend, Socket.afterSend])]
      simp [ReqSocket.afterSend, Socket.afterSend]
    | msg m2 =>
      rw [ReqSocket.req_recv_msg _ Buffer.int m2 rest rfl
        (by simp [ReqSocket.afterSend, Socket.afterSend])]
      simp only []
      split <;> simp [ReqSocket.afterSend, Socket.afterSend]
  · intro a1 rest hready hsend hinbox hack
    obtain ⟨hs1, -⟩ := ReqSocket.req_send_ok c._socket (Sent.request
          { type := some K.AspRequestUpdateWindowSurface, clientId := some c._clientId,
            winId := some id, field1 := some x, field2 := some y, field3 := some width,
            field4 := some height, dataSize := some dataSize }) 0 hready hsend
    have hcond : a1.size ≤ 0 ∨ a1.asInt ≠ 1 := by
      rcases hack with h | h
      · left; omega
      · right; exact h
    unfold Connector.updateWindowSurface
    simp only []
    rw [hs1]
    simp only []
    rw [ReqSocket.req_recv_msg (c._socket.afterSend _) Buffer.int a1 rest rfl hinbox]
    simp only []
    rw [if_pos hcond]
    simp [ReqSocket.afterSend, Socket.afterSend]

theorem resizeWindow_shape (K : Asp) (c : Connector) (id : Int) (data : List Nat)
    (dataSize : Nat) (width height : Int) :
    ((c.resizeWindow K id data dataSize width height).2._windowIds = c._windowIds ∧
    (c.resizeWindow K id data dataSize width height).2._clientId = c._clientId ∧
    ((c.resizeWindow K id data dataSize width height).1 = Outcome.returned () ∨
      (c.resizeWindow K id data dataSize width height).1 = Outcome.blocked) ∧
    (∃ ops, (c.resizeWindow K id data dataSize width height).2._socket.log = c._socket.log ++ ops ∧
      ops <+: [Op.send (Sent.request
          { type := some K.AspRequestResizeWindow, clientId := some c._clientId,
            winId := some id, field1 := some width, field2 := some height,
            dataSize := some dataSize }), Op.recv Buffer.int,
        Op.send (Sent.raster data dataSize), Op.recv Buffer.int]) ∧
    (∀ (a1 : Message) (i2 : Incoming) (rest : List Incoming),
      c._socket.awaitingReply = false →
      c._socket.sendsGoThrough 2 →
      c._socket.inbox = Incoming.msg a1 :: i2 :: rest →
      (0 < a1.size ∧ a1.asInt = 1) →
      (c.resizeWindow K id data dataSize width height).2._socket.log = c._socket.log ++
        [Op.send (Sent.request
          { type := some K.AspRequestResizeWindow, clientId := some c._clientId,
            winId := some id, field1 := some width, field2 := some height,
            dataSize := some dataSize }), Op.recv Buffer.int,
          Op.send (Sent.raster data dataSize), Op.recv Buffer.int] ∧
      (c.resizeWindow K id data dataSize width height).2._socket.inbox = rest ∧
      (c.resizeWindow K id data dataSize width height).1 = Outcome.returned ()) ∧
    (∀ (a1 : Message) (rest : List Incoming),
      c._socket.awaitingReply = false →
      c._socket.sendsGoThrough 1 →
      c._socket.inbox = Incoming.msg a1 :: rest →
      (a1.size = 0 ∨ a1.asInt ≠ 1) →
      (c.resizeWindow K id data dataSize width height).2._socket.log = c._socket.log ++
        [Op.send (Sent.request
          { type := some K.AspRequestResizeWindow, clientId := some c._clientId,
            winId := some id, field1 := some width, field2 := some height,
            dataSize := some dataSize }), Op.recv Buffer.int] ∧
      (c.resizeWindow K id data dataSize width height).2._socket.inbox = rest ∧
      (c.resizeWindow K id data dataSize width height).1 = Outcome.returned ())) := by
  refine ⟨?_, ?_, ?_, ?_, ?_, ?_⟩
  · unfold Connector.resizeWindow
    simp only []
    repeat' split
    all_goals rfl
  · unfold Connector.resizeWindow
    simp only []
    repeat' split
    all_goals rfl
  · unfold Connector.resizeWindow
    simp only []
    repeat' split
    all_goals simp
  · unfold Connector.resizeWindow
    simp only []
    split
    · rename_i s1 hsd
      have l1 := (ReqSocket.req_send_snd_log _ _ _ _ hsd).1
      simp [l1]
    · rename_i s1 hsd
      have l1 := (ReqSocket.req_send_snd_log _ _ _ _ hsd).1
      split
      · rename_i s2 hrv
        have l2 := ReqSocket.req_recv_log _ _ _ _ hrv
        simp [l2, l1]
      · rename_i s2 hrv
        have l2 := ReqSocket.req_recv_log _ _ _ _ hrv
        simp [l2, l1]
      · rename_i m s2 hrv
        have l2 := ReqSocket.req_recv_log _ _ _ _ hrv
        split
        · simp [l2, l1]
        · split
          · rename_i s3 hsd3
            have l3 := (ReqSocket.req_send_snd_log _ _ _ _ hsd3).1
            simp [l3, l2, l1]
          · rename_i s3 hsd3
            have l3 := (ReqSocket.req_send_snd_log _ _ _ _ hsd3).1
            split
            · rename_i s4 hrv4
              have l4 := ReqSocket.req_recv_log _ _ _ _ hrv4
              simp [l4, l3, l2, l1]
            · rename_i s4 hrv4
              have l4 := ReqSocket.req_recv_log _ _ _ _ hrv4
              simp [l4, l3, l2, l1]
            · rename_i m2 s4 hrv4
              have l4 := ReqSocket.req_recv_log _ _ _ _ hrv4
              split <;> simp [l4, l3, l2, l1]
  · intro a1 i2 rest hready hsend hinbox hack
    obtain ⟨hs1, hs1'⟩ := ReqSocket.req_send_ok c._socket (Sent.request
          { type := some K.AspRequestResizeWindow, clientId := some c._clientId,
            winId := some id, field1 := some width, field2 := some height,
            dataSize := some dataSize }) 1 hready hsend
    have hsz : ¬ a1.size ≤ 0 := by omega
    unfold Connector.resizeWindow
    simp only []
    rw [hs1]
    simp only []
    rw [ReqSocket.req_recv_msg (c._socket.afterSend _) Buffer.int a1 (i2 :: rest) rfl hinbox]
    simp only [hsz, hack.2, ne_eq, not_true_eq_false, or_self, if_false]
    rw [(ReqSocket.req_send_ok _ (Sent.raster data dataSize) 0 rfl
      (by simpa [Socket.sendsGoThrough, ReqSocket.afterSend, Socket.afterSend] using hs1')).1]
    simp only []
    cases i2 with
    | fault =>
      rw [ReqSocket.req_recv_fault _ Buffer.int rest rfl
        (by simp [ReqSocket.afterSend, Socket.afterSend])]
      simp [ReqSocket.afterSend, Socket.afterSend]
    | msg m2 =>
      rw [ReqSocket.req_recv_msg _ Buffer.int m2 rest rfl
        (by simp [ReqSocket.afterSend, Socket.afterSend])]
      simp only []
      split <;> simp [ReqSocket.afterSend, Socket.afterSend]
  · intro a1 rest hready hsend hinbox hack
    obtain ⟨hs1, -⟩ := ReqSocket.req_send_ok c._socket (Sent.request
          { type := some K.AspRequestResizeWindow, clientId := some c._clientId,
            winId := some id, field1 := some width, field2 := some height,
            dataSize := some dataSize }) 0 hready hsend
    have hcond : a1.size ≤ 0 ∨ a1.asInt ≠ 1 := by
      rcases hack with h | h
      · left; omega
      · right; exact h
    unfold Connector.resizeWindow
    simp only []
    rw [hs1]
    simp only []
    rw [ReqSocket.req_recv_msg (c._socket.afterSend _) Buffer.int a1 rest rfl hinbox]
    simp only []
    rw [if_pos hcond]
    simp [ReqSocket.afterSend, Socket.afterSend]

/-! ## Surface update and resize -/

/-- C4, as amended. `updateWindowSurface` and `resizeWindow` never change the
window set or the client id and return nothing; the calls they make on the
command socket are the first calls of: send the control record, receive an
acknowledgement, send the payload of `dataSize` bytes, receive an
acknowledgement (at most two round trips, in this order).  On a socket ready
for a request, when no call throws: they make exactly these four calls (two
round trips) when the first acknowledgement is 1, and exactly the first two
(one round trip, the payload is not sent) when the first acknowledgement is
absent or not 1. -/
theorem update_resize_round_trips (K : Asp) (c : Connector) (id : Int)
    (data : List Nat) (dataSize : Nat) (x y width height : Int) :
    ((c.updateWindowSurface K id data dataSize x y width height).2._windowIds = c._windowIds ∧
    (c.updateWindowSurface K id data dataSize x y width height).2._clientId = c._clientId ∧
    ((c.updateWindowSurface K id data dataSize x y width height).1 = Outcome.returned () ∨
      (c.updateWindowSurface K id data dataSize x y width height).1 = Outcome.blocked) ∧
    (∃ ops, (c.updateWindowSurface K id data dataSize x y width height).2._socket.log = c._socket.log ++ ops ∧
      ops <+: [Op.send (Sent.request
          { type := some K.AspRequestUpdateWindowSurface, clientId := some c._clientId,
            winId := some id, field1 := some x, field2 := some y, field3 := some width,
            field4 := some height, dataSize := some dataSize }), Op.recv Buffer.int,
        Op.send (Sent.raster data dataSize), Op.recv Buffer.int]) ∧
    (∀ (a1 : Message) (i2 : Incoming) (rest : List Incoming),
      c._socket.awaitingReply = false →
      c._socket.sendsGoThrough 2 →
      c._socket.inbox = Incoming.msg a1 :: i2 :: rest →
      (0 < a1.size ∧ a1.asInt = 1) →
      (c.updateWindowSurface K id data dataSize x y width height).2._socket.log = c._socket.log ++
        [Op.send (Sent.request
          { type := some K.AspRequestUpdateWindowSurface, clientId := some c._clientId,
            winId := some id, field1 := some x, field2 := some y, field3 := some width,
            field4 := some height, dataSize := some dataSize }), Op.recv Buffer.int,
          Op.send (Sent.raster data dataSize), Op.recv Buffer.int] ∧
      (c.updateWindowSurface K id data dataSize x y width height).2._socket.inbox = rest ∧
      (c.updateWindowSurface K id data dataSize x y width height).1 = Outcome.returned ()) ∧
    (∀ (a1 : Message) (rest : List Incoming),
      c._socket.awaitingReply = false →
      c._socket.sendsGoThrough 1 →
      c._socket.inbox = Incoming.msg a1 :: rest →
      (a1.size = 0 ∨ a1.asInt ≠ 1) →
      (c.updateWindowSurface K id data dataSize x y width height).2._socket.log = c._socket.log ++
        [Op.send (Sent.request
          { type := some K.AspRequestUpdateWindowSurface, clientId := some c._clientId,
            winId := some id, field1 := some x, field2 := some y, field3 := some width,
            field4 := some height, dataSize := some dataSize }), Op.recv Buffer.int] ∧
      (c.updateWindowSurface K id data dataSize x y width height).2._socket.inbox = rest ∧
      (c.updateWindowSurface K id data dataSize x y width height).1 = Outcome.returned ())) ∧
    ((c.resizeWindow K id data dataSize width height).2._windowIds = c._windowIds ∧
    (c.resizeWindow K id data dataSize width height).2._clientId = c._clientId ∧
    ((c.resizeWindow K id data dataSize width height).1 = Outcome.returned () ∨
      (c.resizeWindow K id data dataSize width height).1 = Outcome.blocked) ∧
    (∃ ops, (c.resizeWindow K id data dataSize width height).2._socket.log = c._socket.log ++ ops ∧
      ops <+: [Op.send (Sent.request
          { type := some K.AspRequestResizeWindow, clientId := some c._clientId,
            winId := some id, field1 := some width, field2 := some height,
            dataSize := some dataSize }), Op.recv Buffer.int,
        Op.send (Sent.raster data dataSize), Op.recv Buffer.int]) ∧
    (∀ (a1 : Message) (i2 : Incoming) (rest : List Incoming),
      c._socket.awaitingReply = false →
      c._socket.sendsGoThrough 2 →
      c._socket.inbox = Incoming.msg a1 :: i2 :: rest →
      (0 < a1.size ∧ a1.asInt = 1) →
      (c.resizeWindow K id data dataSize width height).2._socket.log = c._socket.log ++
        [Op.send (Sent.request
          { type := some K.AspRequestResizeWindow, clientId := some c._clientId,
            winId := some id, field1 := some width, field2 := some height,
            dataSize := some dataSize }), Op.recv Buffer.int,
          Op.send (Sent.raster data dataSize), Op.recv Buffer.int] ∧
      (c.resizeWindow K id data dataSize width height).2._socket.inbox = rest ∧
      (c.resizeWindow K id data dataSize width height).1 = Outcome.returned ()) ∧
    (∀ (a1 : Message) (rest : List Incoming),
      c._socket.awaitingReply = false →
      c._socket.sendsGoThrough 1 →
      c._socket.inbox = Incoming.msg a1 :: rest →
      (a1.size = 0 ∨ a1.asInt ≠ 1) →
      (c.resizeWindow K id data dataSize width height).2._socket.log = c._socket.log ++
        [Op.send (Sent.request
          { type := some K.AspRequestResizeWindow, clientId := some c._clientId,
            winId := some id, field1 := some width, field2 := some height,
            dataSize := some dataSize }), Op.recv Buffer.int] ∧
      (c.resizeWindow K id data dataSize width height).2._socket.inbox = rest ∧
      (c.resizeWindow K id data dataSize width height).1 = Outcome.returned ())) :=
  ⟨updateWindowSurface_shape K c id data dataSize x y width height,
    resizeWindow_shape K c id data dataSize width height⟩

theorem update_resize_round_trips_witness :
    ((exampleConnector [5] [Incoming.msg (ackMessage 1), Incoming.msg (ackMessage 1)] [])._socket.awaitingReply = false ∧
      (exampleConnector [5] [Incoming.msg (ackMessage 1), Incoming.msg (ackMessage 1)] [])._socket.sendsGoThrough 2 ∧
      (0 < (ackMessage 1).size ∧ (ackMessage 1).asInt = 1) ∧
      (exampleConnector [5] [Incoming.msg (ackMessage 0)] [])._socket.awaitingReply = false ∧
      (exampleConnector [5] [Incoming.msg (ackMessage 0)] [])._socket.sendsGoThrough 1 ∧
      ((ackMessage 0).size = 0 ∨ (ackMessage 0).asInt ≠ 1)) ∧
    (((exampleConnector [5] [Incoming.msg (ackMessage 1), Incoming.msg (ackMessage 1)] []).updateWindowSurface exampleAsp 5 [] 1024 0 0 100 100).2._socket.log =
        [Op.send (Sent.request
          { type := some 3, clientId := some 7, winId := some 5, field1 := some 0,
            field2 := some 0, field3 := some 100, field4 := some 100,
            dataSize := some 1024 }),
          Op.recv Buffer.int, Op.send (Sent.raster [] 1024), Op.recv Buffer.int] ∧
      ((exampleConnector [5] [Incoming.msg (ackMessage 1), Incoming.msg (ackMessage 1)] []).updateWindowSurface exampleAsp 5 [] 1024 0 0 100 100).2._socket.inbox = [] ∧
      ((exampleConnector [5] [Incoming.msg (ackMessage 1), Incoming.msg (ackMessage 1)] []).updateWindowSurface exampleAsp 5 [] 1024 0 0 100 100).1 = Outcome.returned ()) ∧
    (((exampleConnector [5] [Incoming.msg (ackMessage 0)] []).resizeWindow exampleAsp 5 [] 1024 100 100).2._socket.log =
        [Op.send (Sent.request
          { type := some 4, clientId := some 7, winId := some 5, field1 := some 100,
            field2 := some 100, dataSize := some 1024 }),
          Op.recv Buffer.int] ∧
      ((exampleConnector [5] [Incoming.msg (ackMessage 0)] []).resizeWindow exampleAsp 5 [] 1024 100 100).2._socket.inbox = [] ∧
      ((exampleConnector [5] [Incoming.msg (ackMessage 0)] []).resizeWindow exampleAsp 5 [] 1024 100 100).1 = Outcome.returned ()) :=
  ⟨⟨by decide, by decide, by decide, by decide, by decide, by decide⟩,
    (update_resize_round_trips exampleAsp (exampleConnector [5] [Incoming.msg (ackMessage 1), Incoming.msg (ackMessage 1)] []) 5 [] 1024 0 0 100 100).1.2.2.2.2.1
      (ackMessage 1) (Incoming.msg (ackMessage 1)) [] (by decide) (by decide) rfl (by decide),
    (update_resize_round_trips exampleAsp (exampleConnector [5] [Incoming.msg (ackMessage 0)] []) 5 [] 1024 0 0 100 100).2.2.2.2.2.2
      (ackMessage 0) [] (by decide) (by decide) rfl (by decide)⟩

/-- C4 fails when the first acknowledgement is not 1: with the reply 0 to the
control record, `updateWindowSurface` and `resizeWindow` return after one
round trip; the calls made are the send of the control record and one
receive, the payload is not sent and no second acknowledgement is awaited. -/
theorem update_resize_round_trips_counterexample :
    (((exampleConnector [5] [Incoming.msg (ackMessage 0)] []).updateWindowSurface exampleAsp 5 [] 1024 0 0 100 100).1 = Outcome.returned () ∧
      ((exampleConnector [5] [Incoming.msg (ackMessage 0)] []).updateWindowSurface exampleAsp 5 [] 1024 0 0 100 100).2._socket.log =
        [Op.send (Sent.request
          { type := some 3, clientId := some 7, winId := some 5, field1 := some 0,
            field2 := some 0, field3 := some 100, field4 := some 100,
            dataSize := some 1024 }),
          Op.recv Buffer.int] ∧
      Op.send (Sent.raster [] 1024) ∉
        ((exampleConnector [5] [Incoming.msg (ackMessage 0)] []).updateWindowSurface exampleAsp 5 [] 1024 0 0 100 100).2._socket.log) ∧
    (((exampleConnector [5] [Incoming.msg (ackMessage 0)] []).resizeWindow exampleAsp 5 [] 1024 100 100).1 = Outcome.returned () ∧
      ((exampleConnector [5] [Incoming.msg (ackMessage 0)] []).resizeWindow exampleAsp 5 [] 1024 100 100).2._socket.log =
        [Op.send (Sent.request
          { type := some 4, clientId := some 7, winId := some 5, field1 := some 100,
            field2 := some 100, dataSize := some 1024 }),
          Op.recv Buffer.int] ∧
      Op.send (Sent.raster [] 1024) ∉
        ((exampleConnector [5] [Incoming.msg (ackMessage 0)] []).resizeWindow exampleAsp 5 [] 1024 100 100).2._socket.log) := by
  decide

/-! ## Event wait -/

/-- C5, as amended. For a non-empty text-input record with length field
`L ≥ 1` and a payload of `L` bytes, when no socket call throws, `waitEvent`
makes exactly four calls on the event socket: the receive of the record, an
acknowledgement of value 1, the receive of `L` bytes, an acknowledgement of
value 1; it then returns a `KeyEvent` whose window id is the `winId` of the
record. -/
theorem waitEvent_text_input (K : Asp) (c : Connector) (memory : List Nat)
    (h p : Message) (rest : List Incoming)
    (hsend : c._eventsSocket.sendsGoThrough 2)
    (hinbox : c._eventsSocket.inbox = Incoming.msg h :: Incoming.msg p :: rest)
    (hsize : 0 < h.size)
    (htype : h.asEvent.type = K.AspEventTextInput ∧ h.asEvent.type ≠ K.AspEventMouseInput)
    (hlen : p.size = h.asEvent.field5)
    (hpos : 1 ≤ h.asEvent.field5) :
    (∃ e : KeyEvent, (c.waitEvent K memory).1 = Outcome.returned (some (Event.key e)) ∧
      e._windowId = h.asEvent.winId) ∧
    (c.waitEvent K memory).2._eventsSocket.log =
      c._eventsSocket.log ++
        [Op.recv Buffer.event, Op.send (Sent.ack 1),
          Op.recv (Buffer.chars h.asEvent.field5), Op.send (Sent.ack 1)] ∧
    (c.waitEvent K memory).2._eventsSocket.inbox = rest := by
  have hsz : ¬ h.size = 0 := by omega
  have hpz : ¬ p.size = 0 := by omega
  have hne : ¬ K.AspEventTextInput = K.AspEventMouseInput := by
    rw [← htype.1]; exact htype.2
  unfold Connector.waitEvent
  rw [Socket.recv_msg _ Buffer.event h _ hinbox]
  simp only [hsz, if_false]
  obtain ⟨hs1, hs1'⟩ := Socket.send_ok
    { c._eventsSocket with inbox := Incoming.msg p :: rest,
                           log := c._eventsSocket.log ++ [Op.recv Buffer.event] }
    (Sent.ack 1) 1 (by simpa [Socket.sendsGoThrough] using hsend)
  rw [hs1]
  simp only [htype.1, hne, if_false, if_true]
  rw [Socket.recv_msg _ (Buffer.chars h.asEvent.field5) p rest (by simp [Socket.afterSend])]
  simp only [hpz, if_false]
  rw [(Socket.send_ok _ (Sent.ack 1) 0
    (by simpa [Socket.sendsGoThrough, Socket.afterSend] using hs1')).1]
  simp [Socket.afterSend, KeyEvent.KeyEvent]

theorem waitEvent_text_input_witness :
    ((exampleConnector [] [] [Incoming.msg (textHeader 2),
        Incoming.msg (textMessage [104, 105])])._eventsSocket.sendsGoThrough 2 ∧
      0 < (textHeader 2).size ∧
      ((textHeader 2).asEvent.type = exampleAsp.AspEventTextInput ∧
        (textHeader 2).asEvent.type ≠ exampleAsp.AspEventMouseInput) ∧
      (textMessage [104, 105]).size = (textHeader 2).asEvent.field5 ∧
      1 ≤ (textHeader 2).asEvent.field5) ∧
    ((∃ e : KeyEvent, ((exampleConnector [] [] [Incoming.msg (textHeader 2),
        Incoming.msg (textMessage [104, 105])]).waitEvent exampleAsp [0]).1
          = Outcome.returned (some (Event.key e)) ∧ e._windowId = 4) ∧
      ((exampleConnector [] [] [Incoming.msg (textHeader 2),
        Incoming.msg (textMessage [104, 105])]).waitEvent exampleAsp [0]).2._eventsSocket.log =
        [Op.recv Buffer.event, Op.send (Sent.ack 1), Op.recv (Buffer.chars 2),
          Op.send (Sent.ack 1)] ∧
      ((exampleConnector [] [] [Incoming.msg (textHeader 2),
        Incoming.msg (textMessage [104, 105])]).waitEvent exampleAsp [0]).2._eventsSocket.inbox
        = []) :=
  ⟨⟨by decide, by decide, by decide, by decide, by decide⟩,
    waitEvent_text_input exampleAsp
      (exampleConnector [] [] [Incoming.msg (textHeader 2),
        Incoming.msg (textMessage [104, 105])]) [0] (textHeader 2) (textMessage [104, 105]) []
      (by decide) rfl (by decide) (by decide) (by decide) (by decide)⟩

/-- C5 fails at two inputs.  For `L = 0`: a text-input record with length
field 0 followed by its payload of 0 bytes makes `waitEvent` end the process
with exit code 1 after two receives and a single acknowledgement; no
`KeyEvent` is returned.  For `L = 3` and the payload 97, 0, 98: the call
returns a `KeyEvent` whose text is the single byte 97, of length 1, because
the text stops at the first zero byte. -/
theorem waitEvent_text_input_counterexample :
    (((exampleConnector [] [] [Incoming.msg (textHeader 0),
        Incoming.msg (textMessage [])]).waitEvent exampleAsp []).1 = Outcome.exited 1 ∧
      ((exampleConnector [] [] [Incoming.msg (textHeader 0),
        Incoming.msg (textMessage [])]).waitEvent exampleAsp []).2._eventsSocket.log =
        [Op.recv Buffer.event, Op.send (Sent.ack 1), Op.recv (Buffer.chars 0)] ∧
      ¬ ∃ e : KeyEvent, ((exampleConnector [] [] [Incoming.msg (textHeader 0),
        Incoming.msg (textMessage [])]).waitEvent exampleAsp []).1
          = Outcome.returned (some (Event.key e)) ∧ e._text.length = 0) ∧
    (((exampleConnector [] [] [Incoming.msg (textHeader 3),
        Incoming.msg (textMessage [97, 0, 98])]).waitEvent exampleAsp []).1 =
        Outcome.returned (some (Event.key
          { _windowId := 4, _eventType := EventType.kEventTypeInput,
            _inputEventType := InputEventType.kInputEventTypeKey, _text := [97] })) ∧
      ¬ ∃ e : KeyEvent, ((exampleConnector [] [] [Incoming.msg (textHeader 3),
        Incoming.msg (textMessage [97, 0, 98])]).waitEvent exampleAsp []).1
          = Outcome.returned (some (Event.key e)) ∧ e._text.length = 3) := by
  have h1 : ((exampleConnector [] [] [Incoming.msg (textHeader 0),
      Incoming.msg (textMessage [])]).waitEvent exampleAsp []).1 = Outcome.exited 1 := by
    decide
  have h2 : ((exampleConnector [] [] [Incoming.msg (textHeader 3),
      Incoming.msg (textMessage [97, 0, 98])]).waitEvent exampleAsp []).1 =
      Outcome.returned (some (Event.key
        { _windowId := 4, _eventType := EventType.kEventTypeInput,
          _inputEventType := InputEventType.kInputEventTypeKey, _text := [97] })) := by
    decide
  refine ⟨⟨h1, by decide, ?_⟩, h2, ?_⟩
  · rintro ⟨e, he, -⟩
    rw [h1] at he
    cases he
  · rintro ⟨e, he, hlen⟩
    rw [h2] at he
    simp only [Outcome.returned.injEq, Option.some.injEq, Event.key.injEq] at he
    subst he
    simp at hlen

/-- C6. For a non-empty event record whose discriminant is none of mouse
input, text input and window location changed, `waitEvent` makes exactly two
calls on the event socket, the receive of the record and the send of one
acknowledgement of value 1, receives nothing more, and returns null. -/
theorem waitEvent_unknown_discriminant (K : Asp) (c : Connector) (memory : List Nat)
    (h : Message) (rest : List Incoming)
    (hinbox : c._eventsSocket.inbox = Incoming.msg h :: rest)
    (hsize : 0 < h.size)
    (htype : h.asEvent.type ≠ K.AspEventMouseInput ∧ h.asEvent.type ≠ K.AspEventTextInput ∧
      h.asEvent.type ≠ K.AspEventWindowLocationChanged) :
    (c.waitEvent K memory).1 = Outcome.returned none ∧
    (c.waitEvent K memory).2._eventsSocket.log =
      c._eventsSocket.log ++ [Op.recv Buffer.event, Op.send (Sent.ack 1)] ∧
    (c.waitEvent K memory).2._eventsSocket.inbox = rest := by
  obtain ⟨h1, h2, h3⟩ := htype
  have hsz : ¬ h.size = 0 := by omega
  unfold Connector.waitEvent
  rw [Socket.recv_msg _ Buffer.event h rest hinbox]
  simp only [hsz, if_false]
  split
  · rename_i s2 hsd
    have h4 := Socket.send_snd _ _ _ _ hsd
    subst h4
    simp [Socket.afterSend]
  · rename_i s2 hsd
    have h4 := Socket.send_snd _ _ _ _ hsd
    subst h4
    simp [Socket.afterSend, h1, h2, h3]

theorem waitEvent_unknown_discriminant_witness :
    (0 < (eventMessage (exampleEvent 9 4 0 0)).size ∧
      ((eventMessage (exampleEvent 9 4 0 0)).asEvent.type ≠ exampleAsp.AspEventMouseInput ∧
        (eventMessage (exampleEvent 9 4 0 0)).asEvent.type ≠ exampleAsp.AspEventTextInput ∧
        (eventMessage (exampleEvent 9 4 0 0)).asEvent.type ≠
          exampleAsp.AspEventWindowLocationChanged)) ∧
    (((exampleConnector [] [] [Incoming.msg (eventMessage (exampleEvent 9 4 0 0))]).waitEvent
        exampleAsp []).1 = Outcome.returned none ∧
      ((exampleConnector [] [] [Incoming.msg (eventMessage (exampleEvent 9 4 0 0))]).waitEvent
        exampleAsp []).2._eventsSocket.log = [Op.recv Buffer.event, Op.send (Sent.ack 1)] ∧
      ((exampleConnector [] [] [Incoming.msg (eventMessage (exampleEvent 9 4 0 0))]).waitEvent
        exampleAsp []).2._eventsSocket.inbox = []) :=
  ⟨⟨by decide, by decide⟩,
    waitEvent_unknown_discriminant exampleAsp
      (exampleConnector [] [] [Incoming.msg (eventMessage (exampleEvent 9 4 0 0))]) []
      (eventMessage (exampleEvent 9 4 0 0)) [] rfl (by decide) (by decide)⟩

/-! ## Decoding of mouse events -/

/-- C7. Decoding a mouse event record always yields a `MouseEvent`.  With
pairwise different sub-kind and button codes: for sub-kind press, release or
drag the event has that mouse kind and the button decoded from `field5`, which
is left, middle or right exactly when `field5` is the left, middle or right
code, and undefined for every other code; for sub-kind move the button is
undefined whatever `field5`; in all cases the window id and the four
coordinates are copied from `winId`, `field0`, `field1`, `field2`, `field3`. -/
theorem mouse_event_decoding (K : Asp) (hK : K.distinctCodes) :
    (∀ code : Nat,
      (MouseEvent.parseMouseButton K code = MouseButton.kMouseButtonLeft
        ↔ code = K.AspMouseButtonLeft) ∧
      (MouseEvent.parseMouseButton K code = MouseButton.kMouseButtonMiddle
        ↔ code = K.AspMouseButtonMiddle) ∧
      (MouseEvent.parseMouseButton K code = MouseButton.kMouseButtonRight
        ↔ code = K.AspMouseButtonRight) ∧
      (MouseEvent.parseMouseButton K code = MouseButton.kMouseButtonUndefined
        ↔ code ≠ K.AspMouseButtonLeft ∧ code ≠ K.AspMouseButtonMiddle ∧
          code ≠ K.AspMouseButtonRight)) ∧
    (∀ e : Asp_Event,
      (e.field4 = K.AspMouseEventPress →
        (MouseEvent.MouseEvent K e)._mouseEventType = some MouseEventType.kMouseEventTypePress ∧
        (MouseEvent.MouseEvent K e)._button = some (MouseEvent.parseMouseButton K e.field5)) ∧
      (e.field4 = K.AspMouseEventRelease →
        (MouseEvent.MouseEvent K e)._mouseEventType
          = some MouseEventType.kMouseEventTypeRelease ∧
        (MouseEvent.MouseEvent K e)._button = some (MouseEvent.parseMouseButton K e.field5)) ∧
      (e.field4 = K.AspMouseEventDrag →
        (MouseEvent.MouseEvent K e)._mouseEventType = some MouseEventType.kMouseEventTypeDrag ∧
        (MouseEvent.MouseEvent K e)._button = some (MouseEvent.parseMouseButton K e.field5)) ∧
      (e.field4 = K.AspMouseEventMove →
        (MouseEvent.MouseEvent K e)._mouseEventType = some MouseEventType.kMouseEventTypeMove ∧
        (MouseEvent.MouseEvent K e)._button = some MouseButton.kMouseButtonUndefined) ∧
      (MouseEvent.MouseEvent K e)._windowId = e.winId ∧
      (MouseEvent.MouseEvent K e)._x = e.field0 ∧
      (MouseEvent.MouseEvent K e)._y = e.field1 ∧
      (MouseEvent.MouseEvent K e)._absX = e.field2 ∧
      (MouseEvent.MouseEvent K e)._absY = e.field3) := by
  obtain ⟨hmp, hmr, hmd, hpr, hpd, hrd, hlm, hlr, hmr2⟩ := hK
  constructor
  · intro code
    unfold MouseEvent.parseMouseButton
    refine ⟨?_, ?_, ?_, ?_⟩
    · constructor
      · intro h; split_ifs at h with h1 h2 h3; exact h3
      · intro h; subst h; simp [hlr, hlm]
    · constructor
      · intro h; split_ifs at h with h1 h2 h3; exact h2
      · intro h; subst h; simp [hmr2]
    · constructor
      · intro h; split_ifs at h with h1 h2 h3; exact h1
      · intro h; subst h; simp
    · constructor
      · intro h; split_ifs at h with h1 h2 h3; exact ⟨h3, h2, h1⟩
      · rintro ⟨h3, h2, h1⟩; simp [h1, h2, h3]
  · intro e
    unfold MouseEvent.MouseEvent
    refine ⟨?_, ?_, ?_, ?_, ?_, ?_, ?_, ?_, ?_⟩
    · intro h
      have h0 : ¬ K.AspMouseEventPress = K.AspMouseEventMove := fun h => hmp h.symm
      simp [h, h0]
    · intro h
      have h0 : ¬ K.AspMouseEventRelease = K.AspMouseEventMove := fun h => hmr h.symm
      have h1 : ¬ K.AspMouseEventRelease = K.AspMouseEventPress := fun h => hpr h.symm
      simp [h, h0, h1]
    · intro h
      have h0 : ¬ K.AspMouseEventDrag = K.AspMouseEventMove := fun h => hmd h.symm
      have h1 : ¬ K.AspMouseEventDrag = K.AspMouseEventPress := fun h => hpd h.symm
      have h2 : ¬ K.AspMouseEventDrag = K.AspMouseEventRelease := fun h => hrd h.symm
      simp [h, h0, h1, h2]
    · intro h
      simp [h]
    all_goals (simp only []; try (split_ifs <;> rfl))

theorem mouse_event_decoding_witness :
    exampleAsp.distinctCodes ∧
    (MouseEvent.MouseEvent exampleAsp pressWithUnknownButton)._mouseEventType
      = some MouseEventType.kMouseEventTypePress ∧
    (MouseEvent.MouseEvent exampleAsp pressWithUnknownButton)._button
      = some (MouseEvent.parseMouseButton exampleAsp 7) ∧
    (MouseEvent.parseMouseButton exampleAsp 7 = MouseButton.kMouseButtonUndefined
      ↔ 7 ≠ exampleAsp.AspMouseButtonLeft ∧ 7 ≠ exampleAsp.AspMouseButtonMiddle ∧
        7 ≠ exampleAsp.AspMouseButtonRight) :=
  ⟨by decide,
    (((mouse_event_decoding exampleAsp (by decide)).2 pressWithUnknownButton).1 rfl).1,
    (((mouse_event_decoding exampleAsp (by decide)).2 pressWithUnknownButton).1 rfl).2,
    ((mouse_event_decoding exampleAsp (by decide)).1 7).2.2.2⟩

/-! ## Registration -/

/-- C8, as amended. For every session identifier `s` returned in a non-empty
registration reply followed by a successful (value 1) process-monitor
acknowledgement, such that `base_cmd + s` and `10000 + s` are port numbers
(1 to 65535), when no socket call throws (the registration and
process-monitor sockets are ready for a request, their sends go out, the
library accepts both addresses), `subscribe` stores `s` as the client id,
connects the command socket to port `base_cmd + s` and binds the event socket
on port `10000 + s`. -/
theorem subscribe_ports (K : Asp) (c : Connector) (pid : Int)
    (newSocket : ReqSocket) (newEventsSocket : Socket) (accepts : Endpoint → Bool)
    (reply ack : Message) (rest rest2 : List Incoming)
    (hready1 : c._regSocket.awaitingReply = false)
    (hready2 : c._processMonitorSocket.awaitingReply = false)
    (hsend1 : c._regSocket.sendsGoThrough 1)
    (hsend2 : c._processMonitorSocket.sendsGoThrough 1)
    (hreg : c._regSocket.inbox = Incoming.msg reply :: rest)
    (hsize : 0 < reply.size)
    (hpm : c._processMonitorSocket.inbox = Incoming.msg ack :: rest2)
    (hack : 0 < ack.size ∧ ack.asInt = 1)
    (hcmd : isPortNumber (K.AspReqListenerThreadPortValue + reply.asEvent.field0))
    (hevt : isPortNumber (10000 + reply.asEvent.field0))
    (hconnect : accepts (Endpoint.connect
      (K.AspReqListenerThreadPortValue + reply.asEvent.field0)) = true)
    (hbind : accepts (Endpoint.bind (10000 + reply.asEvent.field0)) = true) :
    (c.subscribe K pid newSocket newEventsSocket accepts).1 = Outcome.returned () ∧
    (c.subscribe K pid newSocket newEventsSocket accepts).2._clientId
      = reply.asEvent.field0 ∧
    (c.subscribe K pid newSocket newEventsSocket accepts).2._socket.endpoint =
      some (Endpoint.connect (K.AspReqListenerThreadPortValue + reply.asEvent.field0)) ∧
    (c.subscribe K pid newSocket newEventsSocket accepts).2._eventsSocket.endpoint =
      some (Endpoint.bind (10000 + reply.asEvent.field0)) := by
  have hsz : reply.size > 0 := hsize
  have hasz : ¬ ack.size ≤ 0 := by omega
  have hcmd32 := toInt32_of_range (K.AspReqListenerThreadPortValue + reply.asEvent.field0)
    (by unfold isPortNumber at hcmd; omega)
  have hevt32 := toInt32_of_range (10000 + reply.asEvent.field0)
    (by unfold isPortNumber at hevt; omega)
  unfold Connector.subscribe
  simp only []
  rw [(ReqSocket.req_send_ok c._regSocket _ 0 hready1 hsend1).1]
  simp only []
  rw [ReqSocket.req_recv_msg (c._regSocket.afterSend _) Buffer.event reply rest rfl hreg]
  simp only [hsz, if_true]
  rw [(ReqSocket.req_send_ok c._processMonitorSocket _ 0 hready2 hsend2).1]
  simp only []
  rw [ReqSocket.req_recv_msg (c._processMonitorSocket.afterSend _) Buffer.int ack rest2 rfl hpm]
  simp only [hasz, hack.2, ne_eq, not_true_eq_false, or_self, if_false]
  rw [hcmd32, hevt32]
  simp [Socket.openAt, hconnect, hbind]

theorem subscribe_ports_witness :
    ((Connector.Connector [Incoming.msg (eventMessage (exampleEvent 0 0 7 0))]
        [Incoming.msg (ackMessage 1)])._regSocket.awaitingReply = false ∧
      (Connector.Connector [Incoming.msg (eventMessage (exampleEvent 0 0 7 0))]
        [Incoming.msg (ackMessage 1)])._processMonitorSocket.awaitingReply = false ∧
      (Connector.Connector [Incoming.msg (eventMessage (exampleEvent 0 0 7 0))]
        [Incoming.msg (ackMessage 1)])._regSocket.sendsGoThrough 1 ∧
      (Connector.Connector [Incoming.msg (eventMessage (exampleEvent 0 0 7 0))]
        [Incoming.msg (ackMessage 1)])._processMonitorSocket.sendsGoThrough 1 ∧
      0 < (eventMessage (exampleEvent 0 0 7 0)).size ∧
      (0 < (ackMessage 1).size ∧ (ackMessage 1).asInt = 1) ∧
      isPortNumber (exampleAsp.AspReqListenerThreadPortValue + 7) ∧
      isPortNumber (10000 + 7) ∧
      portNumbersOnly (Endpoint.connect (exampleAsp.AspReqListenerThreadPortValue + 7))
        = true ∧
      portNumbersOnly (Endpoint.bind (10000 + 7)) = true) ∧
    (((Connector.Connector [Incoming.msg (eventMessage (exampleEvent 0 0 7 0))]
        [Incoming.msg (ackMessage 1)]).subscribe exampleAsp 4242
        (exampleReqSocket none []) (exampleSocket none []) portNumbersOnly).1 = Outcome.returned () ∧
      ((Connector.Connector [Incoming.msg (eventMessage (exampleEvent 0 0 7 0))]
        [Incoming.msg (ackMessage 1)]).subscribe exampleAsp 4242
        (exampleReqSocket none []) (exampleSocket none []) portNumbersOnly).2._clientId = 7 ∧
      ((Connector.Connector [Incoming.msg (eventMessage (exampleEvent 0 0 7 0))]
        [Incoming.msg (ackMessage 1)]).subscribe exampleAsp 4242
        (exampleReqSocket none []) (exampleSocket none []) portNumbersOnly).2._socket.endpoint =
        some (Endpoint.connect (exampleAsp.AspReqListenerThreadPortValue + 7)) ∧
      ((Connector.Connector [Incoming.msg (eventMessage (exampleEvent 0 0 7 0))]
        [Incoming.msg (ackMessage 1)]).subscribe exampleAsp 4242
        (exampleReqSocket none []) (exampleSocket none []) portNumbersOnly).2._eventsSocket.endpoint =
        some (Endpoint.bind (10000 + 7))) :=
  ⟨⟨by decide, by decide, by decide, by decide, by decide, by decide, by decide, by decide,
      by decide, by decide⟩,
    subscribe_ports exampleAsp
      (Connector.Connector [Incoming.msg (eventMessage (exampleEvent 0 0 7 0))]
        [Incoming.msg (ackMessage 1)]) 4242 (exampleReqSocket none []) (exampleSocket none []) portNumbersOnly
      (eventMessage (exampleEvent 0 0 7 0)) (ackMessage 1) [] []
      (by decide) (by decide) (by decide) (by decide) rfl (by decide) rfl (by decide)
      (by decide) (by decide) (by decide) (by decide)⟩

/-- C8 fails for a session identifier whose sums are not port numbers: with
`s = 2147473648` the command port is computed into an `int` as -2147473648
(from 20000 + s) and the sum `10000 + s` is 2147483648.  The library refuses
the address of the `connect` call, the exception leaves `subscribe`, and the
event socket is never bound: neither socket is on the port the claim names. -/
theorem subscribe_ports_counterexample :
    ((Connector.Connector [Incoming.msg (eventMessage (exampleEvent 0 0 2147473648 0))]
        [Incoming.msg (ackMessage 1)]).subscribe exampleAsp 4242
        (exampleReqSocket none []) (exampleSocket none []) portNumbersOnly).1 = Outcome.thrown ∧
    ((Connector.Connector [Incoming.msg (eventMessage (exampleEvent 0 0 2147473648 0))]
        [Incoming.msg (ackMessage 1)]).subscribe exampleAsp 4242
        (exampleReqSocket none []) (exampleSocket none []) portNumbersOnly).2._clientId = 2147473648 ∧
    ((Connector.Connector [Incoming.msg (eventMessage (exampleEvent 0 0 2147473648 0))]
        [Incoming.msg (ackMessage 1)]).subscribe exampleAsp 4242
        (exampleReqSocket none []) (exampleSocket none []) portNumbersOnly).2._socket.endpoint = none ∧
    ((Connector.Connector [Incoming.msg (eventMessage (exampleEvent 0 0 2147473648 0))]
        [Incoming.msg (ackMessage 1)]).subscribe exampleAsp 4242
        (exampleReqSocket none []) (exampleSocket none []) portNumbersOnly).2._eventsSocket.endpoint = none ∧
    ((Connector.Connector [Incoming.msg (eventMessage (exampleEvent 0 0 2147473648 0))]
        [Incoming.msg (ackMessage 1)]).subscribe exampleAsp 4242
        (exampleReqSocket none []) (exampleSocket none []) portNumbersOnly).2._eventsSocket.endpoint ≠
      some (Endpoint.bind (10000 + 2147473648)) := by
  decide

/-! ## Requests without a reply -/

end asl
